import Mathlib

/-!
# Verification of the pdfcrushinator field-mapping and fill pipeline

Shallow embedding of the repository's fill resolver (`scripts/native_fill.py`),
the two field extractors (`extract_form_fields.py` and
`scripts/extract_form_fields.py`), and the job controller's mapping-cache
discipline (`app.py`).  Geometry is modelled over `ℚ`; PDF low-level object
access (`doc.xref_get_key`, appearance-stream parsing) is reflected as fields
of the `Widget` structure, matching the values the source code reads through
those calls.
-/

-- Equality on `Except` results is decidable.
deriving instance DecidableEq for Except

namespace PdfCrush

/-- `fitz.Rect`: an axis-aligned rectangle `(x0, y0, x1, y1)`. -/
structure Rect where
  x0 : ℚ
  y0 : ℚ
  x1 : ℚ
  y1 : ℚ
deriving Repr, DecidableEq

/-- `Rect.width` as in PyMuPDF. -/
def Rect.width (r : Rect) : ℚ := r.x1 - r.x0

/-- `Rect.height` as in PyMuPDF. -/
def Rect.height (r : Rect) : ℚ := r.y1 - r.y0

/-- Area of a rectangle (used only by the spec-side geometric matching rule). -/
def Rect.area (r : Rect) : ℚ := r.width * r.height

/-- `fitz` widget type constants relevant to `native_fill.py`. -/
inductive FieldType where
  | text
  | checkbox
  | radiobutton
  | other
deriving Repr, DecidableEq

/-- One interactive form widget, carrying the data `native_fill.py` reads:
its object id (`widget.xref`), its `field_type`, the `/FT` of its `Parent`
object (as read by `get_parent_field_type`), the first non-`/Off` key of its
`/AP /N` dictionary (as read by `get_on_state_from_ap`; `none` when that
lookup fails), the result of `widget.on_state()` when it is truthy and not
the literal `True` (`none` otherwise or when the call raises), its
`field_name`, its bounding `rect`, its text `field_value`, and its current
`/AS` key. -/
structure Widget where
  xref : Int
  fieldType : FieldType
  parentFT : Option String
  parentXref : Option Int
  apOnState : Option String
  onStateProp : Option String
  fieldName : Option String
  rect : Rect
  fieldValue : String
  asKey : Option String
  textFont : String := "Helv"
  textFontsize : ℚ := 0
deriving Repr, DecidableEq

/-- `is_button_field(doc, widget)`: the widget's own type is checkbox or
radiobutton, or its parent field's `/FT` is `/Btn`. -/
def isButtonField (w : Widget) : Bool :=
  w.fieldType == FieldType.checkbox || w.fieldType == FieldType.radiobutton ||
    w.parentFT == some "/Btn"

/-- The truthy vocabulary of `native_fill.py` lines 102 and 159:
`str(val).lower() in ["x", "true", "yes", "on", "1", "checked"]`. -/
def truthyVocab : List String := ["x", "true", "yes", "on", "1", "checked"]

/-- Python `str.lower` over the string's characters (`Char.toLower` is the
ASCII lowercase map; every value the pipeline compares against is ASCII). -/
def pyLower (s : String) : String := String.mk (s.data.map Char.toLower)

/-- Python `s.strip()` with no argument: remove whitespace from both ends. -/
def pyStrip (s : String) : String :=
  String.mk (((s.data.dropWhile Char.isWhitespace).reverse.dropWhile
    Char.isWhitespace).reverse)

/-- `should_check` / `is_check`: lower-case the value and test membership in
the truthy vocabulary. -/
def shouldCheck (val : String) : Bool := truthyVocab.contains (pyLower val)

/-- Resolution of the "on" state for a button widget (`native_fill.py`
lines 105-114): prefer the `/AP /N` key when present and nonempty
(Python truthiness), then the `on_state()` result, then the literal
`"Yes"`. -/
def resolveOnState (w : Widget) : String :=
  let fromAp : Option String :=
    match w.apOnState with
    | some s => if s = "" then none else some s
    | none => none
  match fromAp with
  | some s => s
  | none =>
    match w.onStateProp with
    | some s => if s = "" then "Yes" else s
    | none => "Yes"

/-- The effect of applying one plan value to one matched widget: the updated
widget, the `xref_set_key(parent, "V", ...)` writes performed on the parent
object, and the lines printed. -/
structure ItemEffect where
  widget : Widget
  parentWrites : List (Int × String)
  log : List String
deriving Repr, DecidableEq

/-- `native_fill.py` lines 101-137: value application to the matched widget.
Button field: when the value is truthy, set `/AS` to the resolved on state
and propagate it to the parent's `/V` when a parent xref exists (printing the
"Radio:" line); when falsy, set `/AS` to `/Off`.  Otherwise (text): set font
attributes and the field value. -/
def applyValueA (w : Widget) (val : String) : ItemEffect :=
  if isButtonField w then
    if shouldCheck val then
      let onS := resolveOnState w
      { widget := { w with asKey := some ("/" ++ onS) }
        parentWrites :=
          match w.parentXref with
          | some px => [(px, "/" ++ onS)]
          | none => []
        log := ["  Radio: xref " ++ toString w.xref ++ " -> /" ++ onS] }
    else
      { widget := { w with asKey := some "/Off" }, parentWrites := [], log := [] }
  else
    { widget := { w with fieldValue := val, textFont := "Helv", textFontsize := 0 }
      parentWrites := [], log := [] }

/-- The widget loop of `native_fill.py` lines 98-138: walk the page's
widgets, apply the value to the first one whose `xref` equals the target
xref, then `break`. -/
def fillWidgets : List Widget → Int → String → List Widget × List (Int × String) × List String
  | [], _, _ => ([], [], [])
  | w :: ws, tx, val =>
    if w.xref = tx then
      let e := applyValueA w val
      (e.widget :: ws, e.parentWrites, e.log)
    else
      let r := fillWidgets ws tx val
      (w :: r.1, r.2.1, r.2.2)

/-- One row of the loaded CSV map: `{"page": ..., "xref": ..., "rect": ...}`. -/
structure Target where
  page : Int
  xref : Int
  rect : Rect
deriving Repr, DecidableEq

/-- One fill-plan item (the schema of `generate_fill_json.py`):
`{row, value, note}`; `note` is never read by the resolver. -/
structure FillItem where
  row : Int
  value : String
  note : String := ""
deriving Repr, DecidableEq

/-- The open document of PART A: its pages (each a widget list) together
with the accumulated parent-object `/V` writes done via `xref_set_key`. -/
structure Doc where
  pages : List (List Widget)
  objWrites : List (Int × String) := []
deriving Repr, DecidableEq

/-- Python sequence indexing for `doc[i]`: non-negative indices below the
length, or negative indices counting from the end; anything else raises
(modelled as `none`). -/
def pyIndex (n : ℕ) (i : Int) : Option ℕ :=
  if 0 ≤ i ∧ i < (n : Int) then some i.toNat
  else if -(n : Int) ≤ i ∧ i < 0 then some (i + n).toNat
  else none

/-- `native_fill.py` lines 89-138, one plan item: look the row up in
`csv_map` (absent row: `continue`, silently); index the page (an invalid
page index raises, aborting the whole fill); run the widget loop.  Returns
the updated document paired with the printed lines, or `none` for an
uncaught exception. -/
def applyItem (m : List (Int × Target)) (d : Doc) (it : FillItem) :
    Option (Doc × List String) :=
  match m.lookup it.row with
  | none => some (d, [])
  | some t =>
    match pyIndex d.pages.length (t.page - 1) with
    | none => none
    | some i =>
      let r := fillWidgets (d.pages.getD i []) t.xref it.value
      some ({ pages := d.pages.set i r.1, objWrites := d.objWrites ++ r.2.1 }, r.2.2)

/-- The PART A item loop over the whole fill plan, accumulating output. -/
def fillAllA (m : List (Int × Target)) (d : Doc) :
    List FillItem → Option (Doc × List String)
  | [] => some (d, [])
  | it :: rest =>
    match applyItem m d it with
    | none => none
    | some (d2, lg) =>
      match fillAllA m d2 rest with
      | none => none
      | some (d3, lg2) => some (d3, lg ++ lg2)

/-! ## Loading the mapping CSV (`native_fill.py` lines 66-78) -/

/-- One CSV record as produced by `csv.DictReader`: an association of column
names to cell strings. -/
abbrev CSVRow := List (String × String)

/-- Digit-string to number, `none` when empty or containing a non-digit. -/
def digitsToNat : List Char → Option ℕ
  | [] => none
  | cs =>
    if cs.all Char.isDigit then
      some (cs.foldl (fun a c => a * 10 + (c.toNat - 48)) 0)
    else none

/-- Python `int(s)` on a string: surrounding whitespace stripped, optional
sign, then decimal digits; anything else raises `ValueError` (`none`).
(Digit-group underscores are not modelled; no CSV in this pipeline contains
them.) -/
def pyInt (s : String) : Option Int :=
  match (pyStrip s).data with
  | '-' :: rest => (digitsToNat rest).map (fun n => -(n : Int))
  | '+' :: rest => (digitsToNat rest).map (fun n => (n : Int))
  | cs => (digitsToNat cs).map (fun n => (n : Int))

/-- Digits with an optional single decimal point, needing at least one digit
overall: `"12"`, `"12."`, `".5"`, `"12.5"`. -/
def decimalMantissa (cs : List Char) : Option ℚ :=
  match cs.splitOn '.' with
  | [intPart] => (digitsToNat intPart).map (fun n => (n : ℚ))
  | [intPart, fracPart] =>
    if intPart = [] ∧ fracPart = [] then none
    else
      let ip : ℚ := match digitsToNat intPart with
        | some n => (n : ℚ)
        | none => 0
      let fp : ℚ := match digitsToNat fracPart with
        | some n => (n : ℚ) / (10 : ℚ) ^ fracPart.length
        | none => 0
      if (intPart = [] ∨ (digitsToNat intPart).isSome) ∧
          (fracPart = [] ∨ (digitsToNat fracPart).isSome) then some (ip + fp)
      else none
  | _ => none

/-- Python `float(s)` on the decimal notations the extractors emit:
whitespace stripped, optional sign, digits with an optional decimal point.
(Exponent notation and `inf`/`nan` are not modelled; the pipeline's CSVs
carry plain decimals.) -/
def pyFloat (s : String) : Option ℚ :=
  match (pyStrip s).data with
  | '-' :: rest => (decimalMantissa rest).map (fun q => -q)
  | '+' :: rest => decimalMantissa rest
  | cs => decimalMantissa cs

/-- The `try` body of `native_fill.py` lines 71-77 for one CSV record:
`int(r['row'])`, then the target dict from `int(r['page'])`,
`int(r['xref'])` and the four `float` coordinates; a missing column
(`KeyError`) or failed conversion (`ValueError`) makes the whole record fail
(`except: continue`). -/
def parseTarget (r : CSVRow) : Option (Int × Target) :=
  match (r.lookup "row").bind pyInt with
  | none => none
  | some row =>
    match (r.lookup "page").bind pyInt with
    | none => none
    | some pg =>
      match (r.lookup "xref").bind pyInt with
      | none => none
      | some xr =>
        match (r.lookup "x1").bind pyFloat, (r.lookup "y1").bind pyFloat,
            (r.lookup "x2").bind pyFloat, (r.lookup "y2").bind pyFloat with
        | some a, some b, some c, some d =>
          some (row, { page := pg, xref := xr, rect := ⟨a, b, c, d⟩ })
        | _, _, _, _ => none

/-- The CSV-loading loop: records that parse are entered into the dict
(`csv_map[row_id] = ...`, later rows overwriting earlier ones — the list is
built most-recent-first so that `List.lookup` returns the last write); the
rest are skipped silently. -/
def loadCsvMap (rows : List CSVRow) : List (Int × Target) :=
  rows.foldl
    (fun m r =>
      match parseTarget r with
      | some kt => kt :: m
      | none => m)
    []

/-! ## The CSV schema written by the two field extractors -/

/-- The header written by both `extract_form_fields.py` variants
(root lines 85-95, scripts line 100): nine columns, no `xref`. -/
def extractHeader : List String :=
  ["row", "heading", "subheading", "form_entry_description",
    "x1", "y1", "x2", "y2", "page"]

/-- A data record of an extractor-produced CSV, as `csv.DictReader` presents
it to `native_fill.py`: the nine extractor columns zipped with the cell
values of one row. -/
def mkExtractRow (row heading subheading descr a b c d pg : String) : CSVRow :=
  [("row", row), ("heading", heading), ("subheading", subheading),
    ("form_entry_description", descr), ("x1", a), ("y1", b), ("x2", c),
    ("y2", d), ("page", pg)]

/-! ## The spec's geometric matching rule (absent from the code) -/

/-- Intersection area of two rectangles. -/
def interArea (a b : Rect) : ℚ :=
  max 0 (min a.x1 b.x1 - max a.x0 b.x0) * max 0 (min a.y1 b.y1 - max a.y0 b.y0)

/-- The geometric-overlap acceptance rule as the spec words it (§4.4 rule 2):
accept a candidate widget for a target exactly when the intersection area of
the widget's bounding box with the target's bbox exceeds 80% of the target's
box area.  This rule appears nowhere in the source; it is stated here only
to be compared against the code's matching predicate. -/
def specGeomAccept (w : Widget) (t : Target) : Bool :=
  decide (interArea w.rect t.rect > (8 / 10 : ℚ) * t.rect.area)

/-- The matching predicate the code actually applies (`native_fill.py`
line 99): `widget.xref == target_xref`. -/
def codeAccept (w : Widget) (tx : Int) : Bool := w.xref == tx

/-! ## Helper lemmas about the PART A fill loop -/

/-- The widget sitting at page index `pi`, widget index `j` of a document. -/
def docWidget (d : Doc) (pi j : ℕ) : Option Widget :=
  (d.pages.get? pi).bind (fun pg => pg.get? j)

/-- Bool-level check that no item of the plan resolves to a target
addressing page index `pi` and widget xref `x` (on a document of `len`
pages). -/
def untargeted (m : List (Int × Target)) (plan : List FillItem) (len pi : ℕ) (x : Int) : Bool :=
  plan.all (fun it =>
    match m.lookup it.row with
    | none => true
    | some t =>
      match pyIndex len (t.page - 1) with
      | none => true
      | some i => decide (i ≠ pi) || decide (t.xref ≠ x))

theorem untargeted_spec (m : List (Int × Target)) (plan : List FillItem) (len pi : ℕ)
    (x : Int) (h : untargeted m plan len pi x = true) :
    ∀ it ∈ plan, ∀ t, m.lookup it.row = some t →
      pyIndex len (t.page - 1) = some pi → t.xref ≠ x := by
  intro it hit t hlk hpi
  have := List.all_eq_true.mp h it hit
  simp only [hlk, hpi] at this
  simpa using this

theorem fillWidgets_length (ws : List Widget) (tx : Int) (val : String) :
    (fillWidgets ws tx val).1.length = ws.length := by
  induction ws with
  | nil => rfl
  | cons w ws ih => by_cases h : w.xref = tx <;> simp [fillWidgets, h, ih]

/-- A widget whose `xref` differs from the target's is never touched by the
widget loop, wherever it sits on the page. -/
theorem fillWidgets_get_ne (ws : List Widget) (tx : Int) (val : String) (j : ℕ) (w : Widget)
    (hj : ws.get? j = some w) (hne : w.xref ≠ tx) :
    (fillWidgets ws tx val).1.get? j = some w := by
  induction ws generalizing j with
  | nil => simp at hj
  | cons w0 ws ih =>
    by_cases h : w0.xref = tx
    · cases j with
      | zero =>
        simp at hj
        subst hj
        exact absurd h hne
      | succ j => simpa [fillWidgets, h] using hj
    · cases j with
      | zero =>
        simp at hj
        subst hj
        simp [fillWidgets, h]
      | succ j =>
        simp only [List.get?_cons_succ] at hj
        simpa [fillWidgets, h] using ih j hj

/-- The first widget whose `xref` equals the target's receives the value. -/
theorem fillWidgets_get_first_match (ws : List Widget) (tx : Int) (val : String) (j : ℕ)
    (w : Widget) (hj : ws.get? j = some w) (hm : w.xref = tx)
    (hearlier : ∀ k, k < j → ∀ w', ws.get? k = some w' → w'.xref ≠ tx) :
    (fillWidgets ws tx val).1.get? j = some (applyValueA w val).widget := by
  induction ws generalizing j with
  | nil => simp at hj
  | cons w0 ws ih =>
    cases j with
    | zero =>
      simp at hj
      subst hj
      simp [fillWidgets, hm]
    | succ j =>
      have h0 : w0.xref ≠ tx := hearlier 0 (Nat.succ_pos j) w0 rfl
      simp only [List.get?_cons_succ] at hj
      have hrest : ∀ k, k < j → ∀ w', ws.get? k = some w' → w'.xref ≠ tx := by
        intro k hk w' hw'
        exact hearlier (k + 1) (Nat.succ_lt_succ hk) w' (by simpa using hw')
      simpa [fillWidgets, h0] using ih j hj hrest

theorem applyItem_pages_length (m : List (Int × Target)) (d : Doc) (it : FillItem)
    (d2 : Doc) (lg : List String) (h : applyItem m d it = some (d2, lg)) :
    d2.pages.length = d.pages.length := by
  cases hlk : m.lookup it.row with
  | none =>
    simp only [applyItem, hlk] at h
    cases h
    rfl
  | some t =>
    cases hpi : pyIndex d.pages.length (t.page - 1) with
    | none => simp [applyItem, hlk, hpi] at h
    | some i =>
      simp only [applyItem, hlk, hpi, Option.some.injEq, Prod.mk.injEq] at h
      obtain ⟨hd2, -⟩ := h
      rw [← hd2]
      simp

/-- Frame property of a single plan item: a widget not addressed by the
item's resolved target is unchanged. -/
theorem applyItem_frame (m : List (Int × Target)) (d : Doc) (it : FillItem)
    (pi j : ℕ) (w : Widget) (d2 : Doc) (lg : List String)
    (h : applyItem m d it = some (d2, lg))
    (hw : docWidget d pi j = some w)
    (hu : ∀ t, m.lookup it.row = some t →
      pyIndex d.pages.length (t.page - 1) = some pi → t.xref ≠ w.xref) :
    docWidget d2 pi j = some w := by
  obtain ⟨pg, hpg, hwj⟩ : ∃ pg, d.pages.get? pi = some pg ∧ pg.get? j = some w := by
    unfold docWidget at hw
    cases hpg : d.pages.get? pi with
    | none => rw [hpg] at hw; cases hw
    | some pg => rw [hpg] at hw; exact ⟨pg, rfl, hw⟩
  cases hlk : m.lookup it.row with
  | none =>
    simp only [applyItem, hlk] at h
    cases h
    unfold docWidget
    rw [hpg]
    exact hwj
  | some t =>
    cases hpi : pyIndex d.pages.length (t.page - 1) with
    | none => simp [applyItem, hlk, hpi] at h
    | some i =>
      simp only [applyItem, hlk, hpi, Option.some.injEq, Prod.mk.injEq] at h
      obtain ⟨hd2, -⟩ := h
      rw [← hd2]
      have hpilt : pi < d.pages.length := by
        by_contra hge
        rw [List.get?_eq_none.mpr (Nat.le_of_not_lt hge)] at hpg
        cases hpg
      by_cases hip : i = pi
      · subst hip
        have hxne : t.xref ≠ w.xref := hu t hlk hpi
        unfold docWidget
        simp only [List.get?_set_of_lt _ _ hpilt, if_pos rfl]
        have hgd : d.pages.getD i [] = pg := by
          have hpg' : d.pages[i]? = some pg := by rw [← List.get?_eq_getElem?]; exact hpg
          simp [List.getD, hpg']
        rw [hgd]
        simpa using fillWidgets_get_ne pg t.xref it.value j w hwj (fun hh => hxne hh.symm)
      · unfold docWidget
        simp only [List.get?_set_of_lt _ _ hpilt, if_neg hip]
        rw [hpg]
        exact hwj

/-- Frame property of the whole PART A loop. -/
theorem fillAllA_frame (m : List (Int × Target)) (plan : List FillItem) (d d' : Doc)
    (lg : List String) (h : fillAllA m d plan = some (d', lg)) (pi j : ℕ) (w : Widget)
    (hw : docWidget d pi j = some w)
    (hu : ∀ it ∈ plan, ∀ t, m.lookup it.row = some t →
      pyIndex d.pages.length (t.page - 1) = some pi → t.xref ≠ w.xref) :
    docWidget d' pi j = some w := by
  induction plan generalizing d lg with
  | nil =>
    simp only [fillAllA] at h
    cases h
    exact hw
  | cons it rest ih =>
    simp only [fillAllA] at h
    cases happ : applyItem m d it with
    | none =>
      simp only [happ] at h
      exact Option.noConfusion h
    | some p =>
      obtain ⟨d2, lg1⟩ := p
      simp only [happ] at h
      cases hrest : fillAllA m d2 rest with
      | none =>
        simp only [hrest] at h
        exact Option.noConfusion h
      | some q =>
        obtain ⟨d3, lg2⟩ := q
        simp only [hrest, Option.some.injEq, Prod.mk.injEq] at h
        obtain ⟨hd3, -⟩ := h
        subst hd3
        have hlen : d2.pages.length = d.pages.length :=
          applyItem_pages_length m d it d2 lg1 happ
        have hw2 : docWidget d2 pi j = some w :=
          applyItem_frame m d it pi j w d2 lg1 happ hw
            (fun t hlk hpi => hu it (List.mem_cons_self it rest) t hlk hpi)
        exact ih d2 lg2 hrest hw2
          (fun it' hit' t hlk hpi =>
            hu it' (List.mem_cons_of_mem it hit') t hlk (by rw [← hlen]; exact hpi))

/-- An empty CSV map makes the fill a no-op with empty output. -/
theorem fillAllA_nil_map (d : Doc) (plan : List FillItem) :
    fillAllA [] d plan = some (d, []) := by
  induction plan with
  | nil => rfl
  | cons it rest ih =>
    simp [fillAllA, show applyItem [] d it = some (d, []) from rfl, ih]

/-- A record without an `xref` column never parses (`r['xref']` raises
`KeyError` inside the `try`). -/
theorem parseTarget_eq_none_of_no_xref (r : CSVRow) (h : r.lookup "xref" = none) :
    parseTarget r = none := by
  unfold parseTarget
  cases hrow : (r.lookup "row").bind pyInt with
  | none => rfl
  | some row =>
    cases hpg : (r.lookup "page").bind pyInt with
    | none => rfl
    | some pg =>
      rw [h]
      rfl

/-- The truthy test spelled out over the six vocabulary words. -/
theorem shouldCheck_chars (val : String) :
    shouldCheck val = (pyLower val == "x" || pyLower val == "true" || pyLower val == "yes" ||
      pyLower val == "on" || pyLower val == "1" || pyLower val == "checked") := by
  simp only [shouldCheck, truthyVocab, List.contains, List.elem]
  cases pyLower val == "x" <;> cases pyLower val == "true" <;> cases pyLower val == "yes" <;>
    cases pyLower val == "on" <;> cases pyLower val == "1" <;>
    cases pyLower val == "checked" <;> rfl

/-- On a button widget with a truthy value, PART A writes the resolved on
state to `/AS` and to the parent's `/V` when a parent xref is present. -/
theorem applyValueA_button_checked (w : Widget) (val : String)
    (hb : isButtonField w = true) (hc : shouldCheck val = true) :
    (applyValueA w val).widget.asKey = some ("/" ++ resolveOnState w) ∧
      (applyValueA w val).parentWrites =
        (match w.parentXref with
          | some px => [(px, "/" ++ resolveOnState w)]
          | none => []) := by
  simp [applyValueA, hb, hc]

/-- On a button widget with a falsy value, PART A writes `/Off` to `/AS`
and performs no parent write. -/
theorem applyValueA_button_unchecked (w : Widget) (val : String)
    (hb : isButtonField w = true) (hc : shouldCheck val = false) :
    (applyValueA w val).widget.asKey = some "/Off" ∧
      (applyValueA w val).parentWrites = [] ∧ (applyValueA w val).log = [] := by
  simp [applyValueA, hb, hc]

/-! ## Widget label resolution (`get_widget_label`, both extractor variants) -/

/-- One entry of `page.get_text("words")`: a word box and its text. -/
structure Word where
  x0 : ℚ
  y0 : ℚ
  x1 : ℚ
  y1 : ℚ
  text : String
deriving Repr, DecidableEq

/-- Python `s.split()`: split on whitespace runs, dropping empty pieces. -/
def pySplitWs (s : String) : List String :=
  ((s.data.splitOnP Char.isWhitespace).map String.mk).filter (· ≠ "")

/-- `" ".join(s.split())`: whitespace normalization. -/
def wsNormalize (s : String) : String := " ".intercalate (pySplitWs s)

/-- Python `s.strip(chars)`: remove any of the given characters from both
ends. -/
def stripChars (cs : List Char) (s : String) : String :=
  String.mk (((s.data.dropWhile cs.contains).reverse.dropWhile cs.contains).reverse)

/-- Stable insertion of `x` into a sorted list: `x` goes before the first
element it compares `le` to, so earlier-inserted equals stay behind it. -/
def insertLe {α : Type} (le : α → α → Bool) (x : α) : List α → List α
  | [] => [x]
  | y :: ys => if le x y then x :: y :: ys else y :: insertLe le x ys

/-- Stable sort (insertion sort), modelling Python `list.sort(key=...)`:
equal keys keep their original relative order. -/
def pySort {α : Type} (le : α → α → Bool) (xs : List α) : List α :=
  xs.foldr (insertLe le) []

/-- Tier 2 of the root variant (`extract_form_fields.py` lines 34-43): the
words strictly left of the widget box (`x1 < x0_box - 5` and
`x1 > x0_box - max_dist`) with vertical overlap (`y1 > y0_box` and
`y0 < y1_box`, padded by 2), kept as `(x0, text)` pairs. -/
def rootLeftWords (words : List Word) (r : Rect) : List (ℚ × String) :=
  (words.filter (fun w =>
    decide (w.x1 < r.x0 - 5) && decide (w.x1 > r.x0 - 200) &&
      decide (w.y1 > r.y0 - 2) && decide (w.y0 < r.y1 + 2))).map (fun w => (w.x0, w.text))

/-- The root variant's tier-2 label text (lines 44-47): the left-adjacent
words sorted by `x0` (stable), joined with spaces, stripped of leading and
trailing space-or-colon characters. -/
def rootTier2Label (words : List Word) (r : Rect) : String :=
  stripChars [' ', ':']
    (" ".intercalate
      ((pySort (fun a b => decide (a.1 ≤ b.1)) (rootLeftWords words r)).map (fun t => t.2)))

/-- `get_widget_label` of the root `extract_form_fields.py` (lines 10-52):
tooltip (`/TU`), else the left-adjacent words as `rootTier2Label`, else
`w.field_name or ""`. -/
def rootGetWidgetLabel (tuRaw : Option String) (words : List Word) (r : Rect)
    (fieldName : Option String) : String :=
  let tooltip := pyStrip (tuRaw.getD "")
  if tooltip ≠ "" then wsNormalize tooltip
  else
    if rootLeftWords words r ≠ [] then
      let label := rootTier2Label words r
      if label ≠ "" then wsNormalize label
      else fieldName.getD ""
    else fieldName.getD ""

/-- Tier 2 of the scripts variant (`scripts/extract_form_fields.py` lines
35-49): words whose center point lies in the closed search rectangle
`(x0 - 200, y0 - 2, x0, y1 + 2)`, kept as `(x1, y0, text)` triples. -/
def scriptsCandidates (words : List Word) (r : Rect) : List (ℚ × ℚ × String) :=
  (words.filter (fun w =>
    let wx := (w.x0 + w.x1) / 2
    let wy := (w.y0 + w.y1) / 2
    decide (r.x0 - 200 ≤ wx) && decide (wx ≤ r.x0) &&
      decide (r.y0 - 2 ≤ wy) && decide (wy ≤ r.y1 + 2))).map (fun w => (w.x1, w.y0, w.text))

/-- `get_widget_label` of `scripts/extract_form_fields.py` (lines 11-60):
tooltip, else the single candidate word closest on the left (greatest
right edge `x1`; stable descending sort, first element), whitespace
stripped, else the field name whitespace stripped when truthy, else `""`. -/
def scriptsGetWidgetLabel (tuRaw : Option String) (words : List Word) (r : Rect)
    (fieldName : Option String) : String :=
  let tooltip := pyStrip (tuRaw.getD "")
  if tooltip ≠ "" then wsNormalize tooltip
  else
    match pySort (fun a b => decide (b.1 ≤ a.1)) (scriptsCandidates words r) with
    | c :: _ => pyStrip c.2.2
    | [] =>
      match fieldName with
      | some s => if s = "" then "" else pyStrip s
      | none => ""

/-! ## Stability and extremal lemmas about the modelled Python sort -/

theorem insertLe_length {α : Type} (le : α → α → Bool) (x : α) (l : List α) :
    (insertLe le x l).length = l.length + 1 := by
  induction l with
  | nil => rfl
  | cons y ys ih => by_cases h : le x y = true <;> simp [insertLe, h, ih]

theorem pySort_length {α : Type} (le : α → α → Bool) (l : List α) :
    (pySort le l).length = l.length := by
  induction l with
  | nil => rfl
  | cons x xs ih => simp [pySort, insertLe_length] at *; omega

theorem insertLe_mem {α : Type} (le : α → α → Bool) (x : α) (l : List α) (a : α) :
    a ∈ insertLe le x l ↔ a = x ∨ a ∈ l := by
  induction l with
  | nil => simp [insertLe]
  | cons y ys ih =>
    by_cases h : le x y = true
    · simp [insertLe, h]
    · simp only [insertLe, h, Bool.false_eq_true, if_false, List.mem_cons, ih]
      tauto

theorem pySort_mem {α : Type} (le : α → α → Bool) (l : List α) (a : α) :
    a ∈ pySort le l ↔ a ∈ l := by
  induction l with
  | nil => simp [pySort]
  | cons x xs ih =>
    simp only [pySort, List.foldr_cons] at *
    rw [insertLe_mem, ih]
    simp

theorem pySort_head_le {α : Type} (le : α → α → Bool)
    (htot : ∀ a b, le a b = true ∨ le b a = true)
    (htrans : ∀ a b c, le a b = true → le b c = true → le a c = true)
    (l : List α) (c : α) (rest : List α) (h : pySort le l = c :: rest) :
    ∀ a ∈ l, le c a = true := by
  induction l generalizing c rest with
  | nil => simp [pySort] at h
  | cons x xs ih =>
    have h' : insertLe le x (pySort le xs) = c :: rest := h
    cases hs : pySort le xs with
    | nil =>
      have hxs : xs = [] := by
        have h2 := congrArg List.length hs
        rw [pySort_length] at h2
        exact List.eq_nil_of_length_eq_zero h2
      subst hxs
      rw [hs] at h'
      simp only [insertLe] at h'
      cases h'
      intro a ha
      simp at ha
      subst ha
      rcases htot a a with hh | hh <;> exact hh
    | cons c0 rest0 =>
      rw [hs] at h'
      have hc0 : ∀ a ∈ xs, le c0 a = true := fun a ha => ih c0 rest0 hs a ha
      by_cases hle : le x c0 = true
      · simp only [insertLe, hle, if_true] at h'
        obtain ⟨hcx, -⟩ := List.cons.inj h'
        subst hcx
        intro a ha
        rcases List.mem_cons.mp ha with hax | haxs
        · subst hax
          rcases htot a a with hh | hh <;> exact hh
        · exact htrans x c0 a hle (hc0 a haxs)
      · simp only [insertLe, hle, Bool.false_eq_true, if_false] at h'
        obtain ⟨hcx, -⟩ := List.cons.inj h'
        subst hcx
        intro a ha
        rcases List.mem_cons.mp ha with hax | haxs
        · subst hax
          rcases htot a c0 with hh | hh
          · exact absurd hh hle
          · exact hh
        · exact hc0 a haxs

/-! ## The two field extractors (`extract_form_fields.py`, both variants) -/

/-- What the extractors read from each enumerated widget: its `rect`
(`None` possible in PyMuPDF), its `field_name`, the string rendering of its
`field_type` after the `or ""` guard, and the `/TU` literal used by the
label heuristic. -/
structure XWidget where
  rect : Option Rect
  fieldName : Option String
  fieldTypeStr : String
  tuRaw : Option String
deriving Repr, DecidableEq

/-- One document page as the extractors see it: its printed words and its
interactive widgets (in enumeration order). -/
structure XPage where
  words : List Word
  widgets : List XWidget
deriving Repr, DecidableEq

/-- One data row of the extractor CSVs: the nine columns of
`extractHeader`. -/
structure ExtractRecord where
  row : ℕ
  heading : String
  subheading : String
  descr : String
  x1 : ℚ
  y1 : ℚ
  x2 : ℚ
  y2 : ℚ
  page : ℕ
deriving Repr, DecidableEq

/-- `[p.strip() for p in (w.field_name or "").split(".")]`. -/
def pySplitDot (s : String) : List String :=
  ((s.data.splitOn '.').map String.mk).map pyStrip

/-- The per-page widget loop of the root extractor (lines 64-79): skip
widgets whose `rect` is `None`, label the rest, split the field name into
heading/subheading, number them with the running 1-based `row_idx`.
Returns the next index and the records. -/
def rootWidgetRows : List XWidget → List Word → ℕ → ℕ → ℕ × List ExtractRecord
  | [], _, _, idx => (idx, [])
  | w :: ws, words, pageNo, idx =>
    match w.rect with
    | none => rootWidgetRows ws words pageNo idx
    | some r =>
      let label := rootGetWidgetLabel w.tuRaw words r w.fieldName
      let parts := pySplitDot (w.fieldName.getD "")
      let record : ExtractRecord :=
        { row := idx, heading := parts.getD 0 "", subheading := parts.getD 1 ""
          descr := label, x1 := r.x0, y1 := r.y0, x2 := r.x1, y2 := r.y1
          page := pageNo + 1 }
      let rest := rootWidgetRows ws words pageNo (idx + 1)
      (rest.1, record :: rest.2)

/-- The page loop of the root extractor, threading `row_idx` across pages. -/
def rootRecordsAux : List XPage → ℕ → ℕ → List ExtractRecord
  | [], _, _ => []
  | pg :: rest, pageNo, idx =>
    let r := rootWidgetRows pg.widgets pg.words pageNo idx
    r.2 ++ rootRecordsAux rest (pageNo + 1) r.1

/-- `extract_form_fields` of the root variant (lines 56-99): enumerate all
pages' widgets; when no rows were produced, raise
`RuntimeError("No interactive form fields found ...")` (modelled as
`Except.error`); otherwise return the rows (the CSV written carries
`extractHeader`, with no `xref` column). -/
def rootExtract (pages : List XPage) (pdfName : String) :
    Except String (List ExtractRecord) :=
  let rows := rootRecordsAux pages 0 1
  if rows = [] then
    Except.error ("No interactive form fields found in “" ++ pdfName ++ "”.")
  else Except.ok rows

/-- The per-page widget loop of the scripts extractor (lines 75-95):
`row_id` increments before each record; an empty label becomes
`"UNLABELED"`; heading is the label, subheading empty, the description is
`f"{field_type} {field_name}".strip()`.  `fitz.Rect(None)` raises, which
aborts the whole script (`Except.error`). -/
def scriptsWidgetRows : List XWidget → List Word → ℕ → ℕ →
    Except String (ℕ × List ExtractRecord)
  | [], _, _, idx => Except.ok (idx, [])
  | w :: ws, words, pageNo, idx =>
    match w.rect with
    | none => Except.error "Rect: bad sequ. length"
    | some r =>
      let label0 := scriptsGetWidgetLabel w.tuRaw words r w.fieldName
      let label := if label0 = "" then "UNLABELED" else label0
      let fname := w.fieldName.getD ""
      let record : ExtractRecord :=
        { row := idx + 1, heading := label, subheading := ""
          descr := pyStrip (w.fieldTypeStr ++ " " ++ fname)
          x1 := r.x0, y1 := r.y0, x2 := r.x1, y2 := r.y1, page := pageNo + 1 }
      match scriptsWidgetRows ws words pageNo (idx + 1) with
      | Except.error e => Except.error e
      | Except.ok rest => Except.ok (rest.1, record :: rest.2)

/-- The page loop of the scripts extractor (lines 69-95), threading
`row_id`; a page with no widgets is skipped (`continue`). -/
def scriptsRecordsAux : List XPage → ℕ → ℕ → Except String (List ExtractRecord)
  | [], _, _ => Except.ok []
  | pg :: rest, pageNo, idx =>
    match scriptsWidgetRows pg.widgets pg.words pageNo idx with
    | Except.error e => Except.error e
    | Except.ok r =>
      match scriptsRecordsAux rest (pageNo + 1) r.1 with
      | Except.error e => Except.error e
      | Except.ok rs => Except.ok (r.2 ++ rs)

/-- `extract_form_fields` of `scripts/extract_form_fields.py` (lines
64-104): enumerate widgets and return the rows.  There is no emptiness
check: a document with zero widgets yields `Except.ok []` and the CSV is
written with just the header. -/
def scriptsExtract (pages : List XPage) : Except String (List ExtractRecord) :=
  scriptsRecordsAux pages 0 0

/-! ## The job controller around extraction (`app.py`, `run_pipeline`) -/

/-- The states `run_pipeline` writes into `status.json`. -/
inductive JobState where
  | queued
  | running (progress : ℕ) (message : String)
  | needsMapping
  | done
  | errorState (message : String)
deriving Repr, DecidableEq

/-- The exit code of an extractor subprocess: `0` on normal return, nonzero
when the script dies with an uncaught exception. -/
def extractExitCode (res : Except String (List ExtractRecord)) : ℕ :=
  match res with
  | Except.ok _ => 0
  | Except.error _ => 1

/-- `app.py` lines 266-285: after the extraction subprocess, a nonzero
return code raises `RuntimeError(f"extract_form_gem4 failed: ...")`, which
the controller converts into the terminal `error` state; otherwise the job
stays `running` and advances to the labeling stage. -/
def stateAfterExtract (returncode : ℕ) (stderr : String) : JobState :=
  if returncode ≠ 0 then
    JobState.errorState ("extract_form_gem4 failed:\n" ++ stderr)
  else JobState.running 38 "Labeling fields with Gemini 3 Vision…"

/-! ## The mapping-cache creation discipline (`app.py` lines 243-311) -/

/-- Where one job stands in the mapping phase: `start` — about to run the
`if not rich_csv.exists()` check; `extracting` — the check saw no cached
mapping and the extraction-plus-labeling sequence is running but
`map_rich.csv` is not yet written; `finished` — past the mapping phase. -/
inductive JobPhase where
  | start
  | extracting
  | finished
deriving Repr, DecidableEq

/-- The shared state: whether `map_rich.csv` exists for the identity, how
many extraction-plus-labeling sequences have run, and each job's phase. -/
structure CacheSys where
  richExists : Bool
  extractions : ℕ
  phases : List JobPhase
deriving Repr, DecidableEq

/-- One step of one job: the existence check either skips the mapping
phase or commits to extracting; the extraction step performs the
extraction-plus-labeling sequence and writes `map_rich.csv` at its end. -/
def jobStep (richExists : Bool) : JobPhase → Bool × ℕ × JobPhase
  | JobPhase.start =>
    if richExists then (richExists, 0, JobPhase.finished)
    else (richExists, 0, JobPhase.extracting)
  | JobPhase.extracting => (true, 1, JobPhase.finished)
  | JobPhase.finished => (richExists, 0, JobPhase.finished)

/-- Run the scheduled job's next step (out-of-range indices do nothing). -/
def sysStep (s : CacheSys) (i : ℕ) : CacheSys :=
  match s.phases.get? i with
  | none => s
  | some ph =>
    let r := jobStep s.richExists ph
    { richExists := r.1, extractions := s.extractions + r.2.1
      phases := s.phases.set i r.2.2 }

/-- Execute a schedule (a list of job indices) over `n` jobs, starting
with no cached mapping. -/
def runSched (n : ℕ) (sched : List ℕ) : CacheSys :=
  sched.foldl sysStep
    { richExists := false, extractions := 0, phases := List.replicate n JobPhase.start }

/-- The fully serialized schedule: each job runs its check and (when taken)
its extraction step to completion before the next job starts. -/
def serialSched (n : ℕ) : List ℕ := (List.range n).flatMap (fun i => [i, i])

/-! ## PART B: visual overrides and rasterized flattening (`native_fill.py`
lines 148-191) -/

/-- A drawing primitive placed by the visual overrides. -/
inductive Drawing where
  | circle (cx cy radius : ℚ)
  | seg (xa ya xb yb : ℚ)
deriving Repr, DecidableEq

/-- A page of the reopened filled document: its rect, live widgets, and
overlay drawings. -/
structure VPage where
  rect : Rect
  widgets : List Widget
  drawings : List Drawing
deriving Repr, DecidableEq

/-- `bs` begins with `pat`. -/
def leadsWith : List Char → List Char → Bool
  | [], _ => true
  | _ :: _, [] => false
  | a :: as, b :: bs => a == b && leadsWith as bs

/-- `pat` occurs contiguously inside the list. -/
def occursIn (pat : List Char) : List Char → Bool
  | [] => leadsWith pat []
  | c :: rest => leadsWith pat (c :: rest) || occursIn pat rest

/-- Python `"Group" in name`. -/
def containsGroup (s : String) : Bool := occursIn "Group".data s.data

/-- `page.delete_widget(target_widget)`: remove the found widget (the first
with the target xref). -/
def eraseFirstXref : List Widget → Int → List Widget
  | [], _ => []
  | w :: ws, tx => if w.xref = tx then ws else w :: eraseFirstXref ws tx

/-- `native_fill.py` lines 162-181 on one page: find the target widget by
xref; when it is a button field, delete it and draw either a centered
filled circle (radio style: `field_name` truthy and containing `"Group"`)
or two crossing inset segments. -/
def overridePage (p : VPage) (tx : Int) : VPage :=
  match p.widgets.find? (fun w => w.xref == tx) with
  | none => p
  | some w =>
    if isButtonField w then
      let r := w.rect
      let isRadioStyle :=
        match w.fieldName with
        | some s => (s != "") && containsGroup s
        | none => false
      let remaining := eraseFirstXref p.widgets tx
      if isRadioStyle then
        { p with
          widgets := remaining,
          drawings := p.drawings ++
            [Drawing.circle ((r.x0 + r.x1) / 2) ((r.y0 + r.y1) / 2)
              (min r.width r.height / 4)] }
      else
        { p with
          widgets := remaining,
          drawings := p.drawings ++
            [Drawing.seg (r.x0 + 2) (r.y0 + 2) (r.x1 - 2) (r.y1 - 2),
              Drawing.seg (r.x0 + 2) (r.y1 - 2) (r.x1 - 2) (r.y0 + 2)] }
    else p

/-- A default page for the (never-reached) out-of-range `getD`. -/
def emptyVPage : VPage := { rect := ⟨0, 0, 0, 0⟩, widgets := [], drawings := [] }

/-- `native_fill.py` lines 152-181, one plan item of the visual-overrides
loop: unknown rows are skipped; the page is indexed (possibly raising);
only truthy (`is_check`) values trigger the override. -/
def applyOverride (m : List (Int × Target)) (d : List VPage) (it : FillItem) :
    Option (List VPage) :=
  match m.lookup it.row with
  | none => some d
  | some t =>
    match pyIndex d.length (t.page - 1) with
    | none => none
    | some i =>
      if shouldCheck it.value then some (d.set i (overridePage (d.getD i emptyVPage) t.xref))
      else some d

/-- The visual-overrides loop over the whole plan. -/
def visualOverrides (m : List (Int × Target)) (d : List VPage) :
    List FillItem → Option (List VPage)
  | [] => some d
  | it :: rest =>
    match applyOverride m d it with
    | none => none
    | some d2 => visualOverrides m d2 rest

/-- One page of the flattened output document (`doc_flat`): created with
the source page's width and height, holding the single inserted raster
image (identified by the source page it renders) and no widgets. -/
structure FlatPage where
  width : ℚ
  height : ℚ
  images : List VPage
  widgets : List Widget
deriving Repr, DecidableEq

/-- `native_fill.py` lines 183-188: for every page of the visual document,
render it to a pixmap and insert that image into a fresh page of the same
dimensions in a new, widget-free document. -/
def rasterize (d : List VPage) : List FlatPage :=
  d.map (fun p =>
    { width := p.rect.width, height := p.rect.height, images := [p], widgets := [] })

/-- PART B end to end: visual overrides on the reopened filled document,
then rasterization into the flattened document. -/
def flattenPartB (m : List (Int × Target)) (plan : List FillItem) (d : List VPage) :
    Option (List FlatPage) :=
  (visualOverrides m d plan).map rasterize

/-! ## Concrete fixtures used by witnesses and counterexamples -/

/-- A plain text widget with the given xref and rect. -/
def mkTextWidget (x : Int) (r : Rect) : Widget :=
  { xref := x, fieldType := FieldType.text, parentFT := none, parentXref := none,
    apOnState := none, onStateProp := none, fieldName := none,
    rect := r, fieldValue := "", asKey := none }

/-- A mapping row whose stored widget identity is xref 5 and whose bbox is
the 10 by 10 square at the origin (area 100). -/
def c1Target : Target := { page := 1, xref := 5, rect := ⟨0, 0, 10, 10⟩ }

/-- A live widget (xref 10) whose box intersects `c1Target`'s bbox in
exactly 81% of the target's area. -/
def c1Overlap81 : Widget := mkTextWidget 10 ⟨0, 0, 9, 9⟩

/-- A live widget carrying the stored xref 5 but placed far away, with zero
intersection with the target bbox. -/
def c1FarSameXref : Widget := mkTextWidget 5 ⟨100, 100, 110, 110⟩

def c1Map : List (Int × Target) := [(1, c1Target)]

def c1Doc : Doc := { pages := [[c1Overlap81, c1FarSameXref]] }

def c1Plan : List FillItem := [{ row := 1, value := "filled" }]

/-- The outcome of running the fill on `c1Doc`: the zero-overlap widget
with the matching xref receives the value; the 81%-overlap widget with the
wrong xref is untouched. -/
def c1DocFilled : Doc :=
  { pages := [[c1Overlap81, { c1FarSameXref with fieldValue := "filled" }]], objWrites := [] }

def c4Radio : Widget :=
  { xref := 7, fieldType := FieldType.radiobutton, parentFT := some "/Btn",
    parentXref := some 42, apOnState := some "Choice1", onStateProp := none,
    fieldName := some "Group1", rect := ⟨0, 0, 10, 10⟩, fieldValue := "", asKey := none }

def c4Map : List (Int × Target) := [(1, { page := 1, xref := 7, rect := ⟨0, 0, 10, 10⟩ })]

def c4Doc : Doc := { pages := [[c4Radio]] }

/-- `c4Doc` after the fill: the radio widget's `/AS`, previously unset, now
explicitly holds `/Off`. -/
def c4DocOff : Doc :=
  { pages := [[{ c4Radio with asKey := some "/Off" }]], objWrites := [] }

def c5Check : Widget :=
  { xref := 3, fieldType := FieldType.checkbox, parentFT := none, parentXref := none,
    apOnState := some "On1", onStateProp := none, fieldName := some "cb",
    rect := ⟨0, 0, 10, 10⟩, fieldValue := "", asKey := none }

def c6W1 : Widget := mkTextWidget 11 ⟨0, 0, 50, 12⟩

def c6W2 : Widget := mkTextWidget 12 ⟨0, 20, 50, 32⟩

def c6Map : List (Int × Target) :=
  [(1, { page := 1, xref := 11, rect := ⟨0, 0, 50, 12⟩ }),
    (2, { page := 1, xref := 12, rect := ⟨0, 20, 50, 32⟩ })]

def c6Doc : Doc := { pages := [[c6W1, c6W2]] }

/-- A plan whose first item references row 9999, absent from `c6Map`. -/
def c6Plan : List FillItem := [{ row := 9999, value := "zz" }, { row := 2, value := "hello" }]

def c6DocFilled : Doc :=
  { pages := [[c6W1, { c6W2 with fieldValue := "hello" }]], objWrites := [] }

/-- The `i`-th of fifty text widgets (xrefs 1 to 50). -/
def baseTextWidget (i : ℕ) : Widget := mkTextWidget ((i : Int) + 1) ⟨0, 0, 100, 20⟩

def doc50 : Doc := { pages := [(List.range 50).map baseTextWidget] }

/-- A 50-row mapping, row `i + 1` pointing at xref `i + 1` on page 1. -/
def map50 : List (Int × Target) :=
  (List.range 50).map (fun i =>
    (((i : Int) + 1), { page := 1, xref := (i : Int) + 1, rect := ⟨0, 0, 100, 20⟩ }))

/-- A plan filling only rows 3 and 7 of the fifty. -/
def plan50 : List FillItem := [{ row := 3, value := "A" }, { row := 7, value := "B" }]

/-- `doc50` with exactly widgets 3 and 7 filled and the other 48 untouched. -/
def doc50Filled : Doc :=
  { pages := [(List.range 50).map (fun i =>
      if i = 2 then { baseTextWidget i with fieldValue := "A" }
      else if i = 6 then { baseTextWidget i with fieldValue := "B" }
      else baseTextWidget i)], objWrites := [] }

/-! ## Claim C1 -/

/-- C1, counterexample: the claim's geometric 80% rule is not what the
resolver applies.  On a concrete fill, the candidate whose intersection
with the target bbox is exactly 81% of the target's area (so the claimed
rule accepts it, `specGeomAccept` true) is rejected — the document comes
back with that widget untouched — while the candidate with zero overlap
but the stored xref is accepted and filled. -/
theorem c1_counterexample :
    interArea c1Overlap81.rect c1Target.rect = (81 / 100 : ℚ) * c1Target.rect.area ∧
    specGeomAccept c1Overlap81 c1Target = true ∧
    interArea c1FarSameXref.rect c1Target.rect = 0 ∧
    fillAllA c1Map c1Doc c1Plan = some (c1DocFilled, []) := by
  refine ⟨?_, ?_, ?_, by decide⟩
  · norm_num [interArea, c1Overlap81, c1Target, mkTextWidget, Rect.area, Rect.width,
      Rect.height, min_def, max_def]
  · norm_num [specGeomAccept, interArea, c1Overlap81, c1Target, mkTextWidget, Rect.area,
      Rect.width, Rect.height, min_def, max_def]
  · norm_num [interArea, c1FarSameXref, c1Target, mkTextWidget, min_def, max_def]

/-- C1, amended: the resolver never falls back to geometric matching — a
candidate widget is accepted for a FillItem exactly when its xref equals
the stored xref (`codeAccept`): a widget whose xref differs is left
untouched wherever it lies, the first widget with the stored xref receives
the value, and the acceptance predicate does not depend on the widget's
bounding box at all. -/
theorem c1_match_by_xref_amended (ws : List Widget) (tx : Int) (val : String) :
    (∀ j w, ws.get? j = some w → codeAccept w tx = false →
      (fillWidgets ws tx val).1.get? j = some w) ∧
    (∀ j w, ws.get? j = some w → codeAccept w tx = true →
      (ws.take j).all (fun w' => !codeAccept w' tx) = true →
      (fillWidgets ws tx val).1.get? j = some (applyValueA w val).widget) ∧
    (∀ (w : Widget) (r : Rect), codeAccept { w with rect := r } tx = codeAccept w tx) := by
  refine ⟨?_, ?_, ?_⟩
  · intro j w hj hacc
    exact fillWidgets_get_ne ws tx val j w hj (by simpa [codeAccept] using hacc)
  · intro j w hj hacc htake
    apply fillWidgets_get_first_match ws tx val j w hj (by simpa [codeAccept] using hacc)
    intro k hk w' hw'
    have hmem : w' ∈ ws.take j := List.get?_mem (by rw [List.get?_take hk]; exact hw')
    have := List.all_eq_true.mp htake w' hmem
    simpa [codeAccept] using this
  · intro w r
    rfl

/-- C1, witness: the amended theorem applied to the concrete page. -/
theorem c1_match_by_xref_amended_witness :
    (fillWidgets [c1Overlap81, c1FarSameXref] 5 "filled").1.get? 0 = some c1Overlap81 ∧
    (fillWidgets [c1Overlap81, c1FarSameXref] 5 "filled").1.get? 1 =
      some (applyValueA c1FarSameXref "filled").widget :=
  ⟨(c1_match_by_xref_amended [c1Overlap81, c1FarSameXref] 5 "filled").1 0 c1Overlap81
      (by decide) (by decide),
    (c1_match_by_xref_amended [c1Overlap81, c1FarSameXref] 5 "filled").2.1 1 c1FarSameXref
      (by decide) (by decide) (by decide)⟩

/-! ## Claim C2 -/

/-- Auxiliary: a fold of only-unparsable records leaves the accumulator. -/
theorem loadCsvMap_all_none_aux (rows : List CSVRow) (m : List (Int × Target))
    (h : ∀ r ∈ rows, parseTarget r = none) :
    rows.foldl
      (fun m r =>
        match parseTarget r with
        | some kt => kt :: m
        | none => m) m = m := by
  induction rows generalizing m with
  | nil => rfl
  | cons r rs ih =>
    simp only [List.foldl_cons, h r (List.mem_cons_self r rs)]
    exact ih m (fun r' hr' => h r' (List.mem_cons_of_mem r hr'))

/-- C2: the CSV loader retains a record only when `row`, `page` and `xref`
parse as integers and the four coordinates as floats; a record that fails
is dropped without affecting the rest (no exception escapes the loop); the
extractor-produced records carry no `xref` column and therefore never
parse, so an extractor-produced mapping loads as the empty dict, under
which the fill applies no widget write and produces no output. -/
theorem c2_extractor_mapping_never_fills :
    (∀ r kt, parseTarget r = some kt →
      ((r.lookup "row").bind pyInt).isSome ∧ ((r.lookup "page").bind pyInt).isSome ∧
      ((r.lookup "xref").bind pyInt).isSome ∧ ((r.lookup "x1").bind pyFloat).isSome ∧
      ((r.lookup "y1").bind pyFloat).isSome ∧ ((r.lookup "x2").bind pyFloat).isSome ∧
      ((r.lookup "y2").bind pyFloat).isSome) ∧
    (∀ r rows, parseTarget r = none → loadCsvMap (r :: rows) = loadCsvMap rows) ∧
    (∀ row heading subheading descr a b c d pg,
      parseTarget (mkExtractRow row heading subheading descr a b c d pg) = none) ∧
    (∀ rows, (∀ r ∈ rows, parseTarget r = none) → loadCsvMap rows = []) ∧
    (∀ d plan, fillAllA [] d plan = some (d, [])) := by
  refine ⟨?_, ?_, ?_, ?_, fillAllA_nil_map⟩
  · intro r kt h
    unfold parseTarget at h
    repeat' split at h
    any_goals cases h
    refine ⟨?_, ?_, ?_, ?_, ?_, ?_, ?_⟩ <;> simp_all
  · intro r rows h
    simp [loadCsvMap, h]
  · intro row heading subheading descr a b c d pg
    exact parseTarget_eq_none_of_no_xref _ rfl
  · intro rows h
    exact loadCsvMap_all_none_aux rows [] h

/-- C2, witness: a concrete extractor record fails to parse, loads to the
empty map, and the fill then leaves a concrete document unchanged. -/
theorem c2_extractor_mapping_never_fills_witness :
    parseTarget (mkExtractRow "1" "Name" "" "7 Text1" "10" "20" "110" "32" "1") = none ∧
    loadCsvMap [mkExtractRow "1" "Name" "" "7 Text1" "10" "20" "110" "32" "1"] = [] ∧
    fillAllA [] c6Doc [{ row := 1, value := "x" }] = some (c6Doc, []) :=
  ⟨c2_extractor_mapping_never_fills.2.2.1 "1" "Name" "" "7 Text1" "10" "20" "110" "32" "1",
    c2_extractor_mapping_never_fills.2.2.2.1
      [mkExtractRow "1" "Name" "" "7 Text1" "10" "20" "110" "32" "1"] (by decide),
    c2_extractor_mapping_never_fills.2.2.2.2 c6Doc [{ row := 1, value := "x" }]⟩

/-! ## Claim C4 -/

/-- C4, counterexample: the resolver does explicitly write an off value to
a radio widget on a falsy value.  On a concrete document whose only widget
is a radio button with unset `/AS`, applying the falsy value `"no"` sets
`/AS` to `/Off` — an explicit off write the claim says never happens. -/
theorem c4_counterexample :
    fillAllA c4Map c4Doc [{ row := 1, value := "no" }] = some (c4DocOff, []) ∧
    (applyValueA c4Radio "no").widget.asKey = some "/Off" ∧
    c4Radio.asKey = none := by decide

/-- C4, amended: for a button widget (radio included), the on state is
written to `/AS` (and to the parent's `/V` when a parent exists) exactly
when the value is truthy; when the value is falsy the resolver explicitly
writes `/Off` to the widget's `/AS` and performs no parent write. -/
theorem c4_radio_amended (w : Widget) (val : String) (hb : isButtonField w = true) :
    (shouldCheck val = true →
      (applyValueA w val).widget.asKey = some ("/" ++ resolveOnState w) ∧
        (applyValueA w val).parentWrites =
          (match w.parentXref with
            | some px => [(px, "/" ++ resolveOnState w)]
            | none => [])) ∧
    (shouldCheck val = false →
      (applyValueA w val).widget.asKey = some "/Off" ∧
        (applyValueA w val).parentWrites = []) :=
  ⟨fun hc => applyValueA_button_checked w val hb hc,
    fun hc => ⟨(applyValueA_button_unchecked w val hb hc).1,
      (applyValueA_button_unchecked w val hb hc).2.1⟩⟩

/-- C4, witness: the amended theorem at a concrete radio widget with a
truthy and a falsy value. -/
theorem c4_radio_amended_witness :
    (applyValueA c4Radio "yes").widget.asKey = some ("/" ++ resolveOnState c4Radio) ∧
    (applyValueA c4Radio "no").widget.asKey = some "/Off" :=
  ⟨((c4_radio_amended c4Radio "yes" (by decide)).1 (by decide)).1,
    ((c4_radio_amended c4Radio "no" (by decide)).2 (by decide)).1⟩

/-! ## Claim C5 -/

/-- C5: the checkbox boolean rule.  After lower-casing, a value is truthy
exactly when it is one of `x`, `true`, `yes`, `on`, `1`, `checked`; the
spec's examples `"X"`, `"yes"`, `"ON"`, `"1"`, `"checked"` are truthy and
`""`, `"no"`, `"false"`, `"0"` falsy; and on a button widget the truthy
case writes the resolved on state while every other value writes `/Off`. -/
theorem c5_checkbox_truthy_vocabulary :
    (∀ val : String, shouldCheck val = (pyLower val == "x" || pyLower val == "true" ||
      pyLower val == "yes" || pyLower val == "on" || pyLower val == "1" ||
      pyLower val == "checked")) ∧
    ([shouldCheck "X", shouldCheck "yes", shouldCheck "ON", shouldCheck "1",
      shouldCheck "checked"] = [true, true, true, true, true]) ∧
    ([shouldCheck "", shouldCheck "no", shouldCheck "false", shouldCheck "0"] =
      [false, false, false, false]) ∧
    (∀ w val, isButtonField w = true → shouldCheck val = true →
      (applyValueA w val).widget.asKey = some ("/" ++ resolveOnState w)) ∧
    (∀ w val, isButtonField w = true → shouldCheck val = false →
      (applyValueA w val).widget.asKey = some "/Off") :=
  ⟨shouldCheck_chars, by decide, by decide,
    fun w val hb hc => (applyValueA_button_checked w val hb hc).1,
    fun w val hb hc => (applyValueA_button_unchecked w val hb hc).1⟩

/-- C5, witness: the vocabulary rule applied to a concrete checkbox. -/
theorem c5_checkbox_truthy_vocabulary_witness :
    (applyValueA c5Check "X").widget.asKey = some ("/" ++ resolveOnState c5Check) ∧
    (applyValueA c5Check "no").widget.asKey = some "/Off" :=
  ⟨c5_checkbox_truthy_vocabulary.2.2.2.1 c5Check "X" (by decide) (by decide),
    c5_checkbox_truthy_vocabulary.2.2.2.2 c5Check "no" (by decide) (by decide)⟩

/-! ## Claim C6 -/

/-- Whether a job status is the terminal `error` state. -/
def isErrorState : JobState → Bool
  | JobState.errorState _ => true
  | _ => false

/-- The long options `native_fill.py`'s argument parser declares (lines
58-63), every one required and taking one value. -/
def nativeFillOptions : List String :=
  ["--pdf", "--csv", "--plan", "--out-active", "--out-flat"]

/-- argparse long-option lookup with default abbreviation: an exact match
wins; otherwise every declared option the token abbreviates (is a prefix
of) is a candidate. -/
def argMatches (opts : List String) (tok : String) : List String :=
  if opts.contains tok then [tok]
  else opts.filter (fun o => leadsWith tok.data o.data)

/-- The argparse scan over the argument vector: each `--` token must
resolve to exactly one declared option (zero matches: unrecognized; two or
more: ambiguous abbreviation) and consumes the following token as its
value.  Returns the options seen. -/
def parseArgsLoop (opts : List String) (seen : List String) :
    List String → Except String (List String)
  | [] => Except.ok seen
  | tok :: rest =>
    if leadsWith "--".data tok.data then
      match argMatches opts tok with
      | [o] =>
        match rest with
        | [] => Except.error ("argument " ++ o ++ ": expected one argument")
        | _ :: rest2 => parseArgsLoop opts (seen ++ [o]) rest2
      | [] => Except.error ("unrecognized arguments: " ++ tok)
      | cands => Except.error ("ambiguous option: " ++ tok ++ " could match " ++
          ", ".intercalate cands)
    else Except.error ("unrecognized arguments: " ++ tok)

/-- `parser.parse_args()` of `native_fill.py`: scan the argument vector,
then require every declared option to have appeared. -/
def parseNativeFillArgs (argv : List String) : Except String (List String) :=
  match parseArgsLoop nativeFillOptions [] argv with
  | Except.error e => Except.error e
  | Except.ok seen =>
    match nativeFillOptions.filter (fun o => !seen.contains o) with
    | [] => Except.ok seen
    | missing =>
      Except.error ("the following arguments are required: " ++ ", ".intercalate missing)

/-- argparse calls `sys.exit(2)` on any parse error; a successful parse
lets the script run on (exit 0 barring later exceptions). -/
def argparseExitCode (r : Except String (List String)) : ℕ :=
  match r with
  | Except.ok _ => 0
  | Except.error _ => 2

/-- The argument list `run_pipeline` passes to `native_fill.py`
(`app.py` lines 343-357): note `--out`, not `--out-active`/`--out-flat`. -/
def appNativeFillArgv (pdf csvFile plan out : String) : List String :=
  ["--pdf", pdf, "--csv", csvFile, "--plan", plan, "--out", out]

/-- `app.py` lines 359-394 around the fill subprocess: a nonzero return
code raises `RuntimeError("native_fill failed: ...")`, which the
controller's handler converts into the terminal `error` state; on success
the controller copies the artifacts and reaches `done` (line 378; the
artifact copies themselves are not modelled). -/
def stateAfterFill (returncode : ℕ) (stderr : String) : JobState :=
  if returncode ≠ 0 then JobState.errorState ("native_fill failed:\n" ++ stderr)
  else JobState.done

/-- C6, counterexample, refuting both false clauses of the claim.  First,
the unknown-row skip is silent, not warned: on a concrete run whose plan
references row 9999 against a 2-row mapping, the fill succeeds, applies
the remaining item, and its entire printed output is the empty list.
Second, the Job does not "still reach `done`": the controller invokes
`native_fill.py` with `--out`, an ambiguous abbreviation of the required
`--out-active` and `--out-flat`, so the parser rejects the argument vector
`run_pipeline` builds, the subprocess exits with code 2, and the fill
stage puts the Job in the terminal `error` state, never `done`. -/
theorem c6_counterexample :
    fillAllA c6Map c6Doc c6Plan = some (c6DocFilled, []) ∧
    parseNativeFillArgs
        (appNativeFillArgv "input.pdf" "map_rich.csv" "fill_plan.json" "filled.pdf") =
      Except.error "ambiguous option: --out could match --out-active, --out-flat" ∧
    argparseExitCode (parseNativeFillArgs
        (appNativeFillArgv "input.pdf" "map_rich.csv" "fill_plan.json" "filled.pdf")) = 2 ∧
    isErrorState (stateAfterFill 2 "usage: native_fill.py") = true ∧
    stateAfterFill 2 "usage: native_fill.py" ≠ JobState.done := by decide

/-- C6, amended: a FillItem whose `row_id` is absent from the mapping is
skipped silently — the document is unchanged, nothing is printed, no
exception is raised — and the rest of the plan is processed exactly as if
the item were not there; the skip is thus never fatal to the fill itself.
The Job however never reaches `done`, unknown rows or not: for every
choice of file paths, the controller's `native_fill.py` invocation fails
argument parsing (exit code 2), so the fill stage always ends the Job in
the terminal `error` state. -/
theorem c6_unknown_row_amended (m : List (Int × Target)) (d : Doc) (it : FillItem)
    (rest : List FillItem) (h : m.lookup it.row = none) :
    (applyItem m d it = some (d, []) ∧ fillAllA m d (it :: rest) = fillAllA m d rest) ∧
    (∀ pdf csvFile plan out stderr,
      argparseExitCode (parseNativeFillArgs (appNativeFillArgv pdf csvFile plan out)) = 2 ∧
      isErrorState (stateAfterFill
        (argparseExitCode (parseNativeFillArgs (appNativeFillArgv pdf csvFile plan out)))
        stderr) = true ∧
      stateAfterFill
        (argparseExitCode (parseNativeFillArgs (appNativeFillArgv pdf csvFile plan out)))
        stderr ≠ JobState.done) := by
  constructor
  · have h1 : applyItem m d it = some (d, []) := by simp [applyItem, h]
    refine ⟨h1, ?_⟩
    simp only [fillAllA, h1]
    cases hr : fillAllA m d rest with
    | none => rfl
    | some p =>
      cases p
      simp
  · intro pdf csvFile plan out stderr
    refine ⟨rfl, rfl, ?_⟩
    intro hdone
    exact JobState.noConfusion hdone

/-- C6, witness: the amended theorem at the concrete row-9999 plan and the
concrete file paths of a job directory. -/
theorem c6_unknown_row_amended_witness :
    (applyItem c6Map c6Doc { row := 9999, value := "zz" } = some (c6Doc, []) ∧
      fillAllA c6Map c6Doc c6Plan = fillAllA c6Map c6Doc [{ row := 2, value := "hello" }]) ∧
    (argparseExitCode (parseNativeFillArgs
        (appNativeFillArgv "input.pdf" "map_rich.csv" "fill_plan.json" "filled.pdf")) = 2 ∧
      isErrorState (stateAfterFill
        (argparseExitCode (parseNativeFillArgs
          (appNativeFillArgv "input.pdf" "map_rich.csv" "fill_plan.json" "filled.pdf")))
        "") = true ∧
      stateAfterFill
        (argparseExitCode (parseNativeFillArgs
          (appNativeFillArgv "input.pdf" "map_rich.csv" "fill_plan.json" "filled.pdf")))
        "" ≠ JobState.done) :=
  ⟨(c6_unknown_row_amended c6Map c6Doc { row := 9999, value := "zz" }
      [{ row := 2, value := "hello" }] (by decide)).1,
    (c6_unknown_row_amended c6Map c6Doc { row := 9999, value := "zz" }
      [{ row := 2, value := "hello" }] (by decide)).2
      "input.pdf" "map_rich.csv" "fill_plan.json" "filled.pdf" ""⟩

/-! ## Claim C7 -/

/-- C7: sparse plans touch only their targets.  Any widget that no plan
item resolves to (by mapping-row lookup, page index and xref) keeps its
exact prior state through the whole fill; and on a concrete 50-field
document, a plan naming only rows 3 and 7 fills exactly those two widgets
and leaves the other 48 identical. -/
theorem c7_sparse_plan :
    (∀ m plan d d' lg pi j w, fillAllA m d plan = some (d', lg) →
      docWidget d pi j = some w →
      untargeted m plan d.pages.length pi w.xref = true →
      docWidget d' pi j = some w) ∧
    fillAllA map50 doc50 plan50 = some (doc50Filled, []) := by
  constructor
  · intro m plan d d' lg pi j w h hw hu
    exact fillAllA_frame m plan d d' lg h pi j w hw
      (untargeted_spec m plan d.pages.length pi w.xref hu)
  · decide

/-- C7, witness: the frame half applied to widget 10 of the 50-field
document. -/
theorem c7_sparse_plan_witness :
    docWidget doc50Filled 0 10 = some (baseTextWidget 10) :=
  c7_sparse_plan.1 map50 plan50 doc50 doc50Filled [] 0 10 (baseTextWidget 10)
    (by decide) (by decide) (by decide)

end PdfCrush

/-! ## Claim C3 -/

namespace PdfCrush

/-- A two-page document with no interactive widgets at all. -/
def zeroFieldDoc : List XPage := [⟨[], []⟩, ⟨[], []⟩]

/-- C3, divergence evaluated at the failing input: on a document with zero
fillable widgets, the root extractor raises (`Except.error`) as the claim
requires — but `scripts/extract_form_fields.py`, the variant `app.py`
actually invokes, returns normally with zero rows, its process exits with
code 0, and the controller therefore does not enter the `error` state at
the extraction stage: the job proceeds to the labeling stage instead of
failing fatally. -/
theorem c3_zero_fields_divergence :
    rootExtract zeroFieldDoc "form.pdf" =
      Except.error "No interactive form fields found in “form.pdf”." ∧
    scriptsExtract zeroFieldDoc = Except.ok [] ∧
    extractExitCode (scriptsExtract zeroFieldDoc) = 0 ∧
    stateAfterExtract (extractExitCode (scriptsExtract zeroFieldDoc)) "" =
      JobState.running 38 "Labeling fields with Gemini 3 Vision…" ∧
    isErrorState (stateAfterExtract (extractExitCode (scriptsExtract zeroFieldDoc)) "") =
      false := by decide

/-! ## Claim C8 -/

/-- A widget box at x = 100..110 whose label should be read from its left. -/
def c8Rect : Rect := ⟨100, 10, 110, 20⟩

/-- The first word of the printed label run to the widget's left. -/
def c8WFull : Word := ⟨50, 12, 60, 18, "Full"⟩

/-- The second, nearer word of the run, ending in a colon. -/
def c8WName : Word := ⟨70, 12, 80, 18, "Name:"⟩

/-- C8, counterexample: the two cited implementations disagree on tier 2.
With no tooltip and the printed words "Full" "Name:" to the widget's left,
the root variant concatenates the run left-to-right and strips the colon
("Full Name", as the claim describes), but the scripts variant returns
only the single nearest word, unconcatenated and with its colon kept
("Name:").  The claim's description is therefore false of
`scripts/extract_form_fields.py`. -/
theorem c8_counterexample :
    rootGetWidgetLabel none [c8WFull, c8WName] c8Rect (some "Text1.0") = "Full Name" ∧
    scriptsGetWidgetLabel none [c8WFull, c8WName] c8Rect (some "Text1.0") = "Name:" ∧
    ("Name:" : String) ≠ "Full Name" := by
  have hc : scriptsCandidates [c8WFull, c8WName] c8Rect =
      [(60, 12, "Full"), (80, 12, "Name:")] := by
    norm_num [scriptsCandidates, c8WFull, c8WName, c8Rect, List.filter]
  have hw : rootLeftWords [c8WFull, c8WName] c8Rect = [(50, "Full"), (70, "Name:")] := by
    norm_num [rootLeftWords, c8WFull, c8WName, c8Rect, List.filter]
  have hl : rootTier2Label [c8WFull, c8WName] c8Rect = "Full Name" := by
    rw [rootTier2Label, hw]
    decide
  refine ⟨?_, ?_, by decide⟩
  · rw [rootGetWidgetLabel, hw, hl]
    decide
  · rw [scriptsGetWidgetLabel.eq_def, hc]
    decide

/-- C8, amended: both variants use the strict priority order tooltip →
left text → field name, and the tooltip tier is whitespace-normalized in
both; but the tiers differ between the variants: the root variant's tier 2
is the concatenated left-to-right run with trailing colon/space stripped
(`rootTier2Label`) and its tier 3 the field name verbatim (`or ""`),
whereas the scripts variant's tier 2 returns only the single nearest word
on the left (the candidate with maximal right edge), whitespace-stripped, and
its tier 3 strips the field name. -/
theorem c8_label_priority_amended (tu : Option String) (words : List Word) (r : Rect)
    (fn : Option String) :
    (pyStrip (tu.getD "") ≠ "" →
      rootGetWidgetLabel tu words r fn = wsNormalize (pyStrip (tu.getD "")) ∧
      scriptsGetWidgetLabel tu words r fn = wsNormalize (pyStrip (tu.getD ""))) ∧
    (pyStrip (tu.getD "") = "" → rootLeftWords words r = [] →
      rootGetWidgetLabel tu words r fn = fn.getD "") ∧
    (pyStrip (tu.getD "") = "" → scriptsCandidates words r = [] →
      scriptsGetWidgetLabel tu words r fn =
        (match fn with
          | some s => if s = "" then "" else pyStrip s
          | none => "")) ∧
    (pyStrip (tu.getD "") = "" → rootLeftWords words r ≠ [] → rootTier2Label words r ≠ "" →
      rootGetWidgetLabel tu words r fn = wsNormalize (rootTier2Label words r)) ∧
    (pyStrip (tu.getD "") = "" → scriptsCandidates words r ≠ [] →
      ∃ c, c ∈ scriptsCandidates words r ∧ (∀ c' ∈ scriptsCandidates words r, c'.1 ≤ c.1) ∧
        scriptsGetWidgetLabel tu words r fn = pyStrip c.2.2) := by
  refine ⟨?_, ?_, ?_, ?_, ?_⟩
  · intro h
    constructor
    · rw [rootGetWidgetLabel]
      simp [h]
    · rw [scriptsGetWidgetLabel.eq_def]
      simp [h]
  · intro h hlw
    rw [rootGetWidgetLabel]
    simp [h, hlw]
  · intro h hc
    rw [scriptsGetWidgetLabel.eq_def, hc]
    simp [h, pySort]
  · intro h hlw hl
    rw [rootGetWidgetLabel]
    simp [h, hlw, hl]
  · intro h hc
    cases hs : pySort (fun a b => decide (b.1 ≤ a.1)) (scriptsCandidates words r) with
    | nil =>
      exfalso
      apply hc
      have := congrArg List.length hs
      rw [pySort_length] at this
      exact List.eq_nil_of_length_eq_zero this
    | cons c rest =>
      refine ⟨c, ?_, ?_, ?_⟩
      · exact (pySort_mem _ _ c).mp (hs ▸ List.mem_cons_self c rest)
      · intro c' hc'
        have htot : ∀ a b : ℚ × ℚ × String,
            decide (b.1 ≤ a.1) = true ∨ decide (a.1 ≤ b.1) = true := by
          intro a b
          rcases le_total b.1 a.1 with hh | hh
          · exact Or.inl (decide_eq_true hh)
          · exact Or.inr (decide_eq_true hh)
        have htrans : ∀ a b c : ℚ × ℚ × String,
            decide (b.1 ≤ a.1) = true → decide (c.1 ≤ b.1) = true →
            decide (c.1 ≤ a.1) = true := by
          intro a b c h1 h2
          exact decide_eq_true (le_trans (of_decide_eq_true h2) (of_decide_eq_true h1))
        have := pySort_head_le _ htot htrans _ c rest hs c' hc'
        exact of_decide_eq_true this
      · rw [scriptsGetWidgetLabel.eq_def, hs]
        simp [h]

/-- C8, witness: the amended theorem applied with a concrete tooltip, with
no left text, and with the concrete two-word page. -/
theorem c8_label_priority_amended_witness :
    rootGetWidgetLabel (some " Tip  text ") [] c8Rect (some "fn") =
      wsNormalize (pyStrip ((some " Tip  text " : Option String).getD "")) ∧
    rootGetWidgetLabel none [] c8Rect (some "fn") = (some "fn" : Option String).getD "" ∧
    (∃ c, c ∈ scriptsCandidates [c8WFull, c8WName] c8Rect ∧
      (∀ c' ∈ scriptsCandidates [c8WFull, c8WName] c8Rect, c'.1 ≤ c.1) ∧
      scriptsGetWidgetLabel none [c8WFull, c8WName] c8Rect (some "fn") = pyStrip c.2.2) :=
  ⟨((c8_label_priority_amended (some " Tip  text ") [] c8Rect (some "fn")).1 (by decide)).1,
    (c8_label_priority_amended none [] c8Rect (some "fn")).2.1 (by decide) rfl,
    (c8_label_priority_amended none [c8WFull, c8WName] c8Rect (some "fn")).2.2.2.2 (by decide)
      (by
        rw [show scriptsCandidates [c8WFull, c8WName] c8Rect =
            [(60, 12, "Full"), (80, 12, "Name:")] from by
          norm_num [scriptsCandidates, c8WFull, c8WName, c8Rect, List.filter]]
        decide)⟩

end PdfCrush

namespace PdfCrush

/-! ## Claim C9 -/

/-- C9, counterexample: an interleaving of two jobs on the same identity
with no cached mapping in which both pass the `rich_csv.exists()` check
before either finishes extraction: both run the extraction-plus-labeling
sequence, so two extractions execute, not at most one. -/
theorem c9_counterexample : (runSched 2 [0, 1, 0, 1]).extractions = 2 ∧
    (runSched 2 [0, 1, 0, 1]).phases = [JobPhase.finished, JobPhase.finished] := by decide

/-- One scheduler step preserves the established-cache invariant: once
`map_rich.csv` exists and no job is mid-extraction, no further extraction
ever starts. -/
theorem sysStep_preserves (s : CacheSys) (i : ℕ)
    (hrich : s.richExists = true)
    (hph : ∀ ph ∈ s.phases, ph ≠ JobPhase.extracting) :
    (sysStep s i).extractions = s.extractions ∧ (sysStep s i).richExists = true ∧
    (∀ ph ∈ (sysStep s i).phases, ph ≠ JobPhase.extracting) := by
  unfold sysStep
  cases hpi : s.phases.get? i with
  | none => exact ⟨rfl, hrich, hph⟩
  | some ph =>
    have hne : ph ≠ JobPhase.extracting := hph ph (List.get?_mem hpi)
    cases ph with
    | start =>
      simp only [jobStep, hrich, if_true]
      refine ⟨rfl, trivial, ?_⟩
      intro p hp
      rcases List.mem_or_eq_of_mem_set hp with h | h
      · exact hph p h
      · subst h
        simp
    | extracting => exact absurd rfl hne
    | finished =>
      simp only [jobStep]
      refine ⟨rfl, hrich, ?_⟩
      intro p hp
      rcases List.mem_or_eq_of_mem_set hp with h | h
      · exact hph p h
      · subst h
        simp

/-- Once the mapping exists and nobody is mid-extraction, any further
schedule performs no extraction at all. -/
theorem runFrom_stable (sched : List ℕ) (s : CacheSys)
    (hrich : s.richExists = true)
    (hph : ∀ ph ∈ s.phases, ph ≠ JobPhase.extracting) :
    (sched.foldl sysStep s).extractions = s.extractions := by
  induction sched generalizing s with
  | nil => rfl
  | cons i rest ih =>
    obtain ⟨h1, h2, h3⟩ := sysStep_preserves s i hrich hph
    simp only [List.foldl_cons]
    rw [ih (sysStep s i) h2 h3, h1]

/-- C9, amended: the check-then-extract discipline guarantees a single
extraction only when jobs are serialized — under the serial schedule the
first job extracts and every later job's check sees the cached mapping, so
exactly one extraction runs; but (per the counterexample) interleaved
concurrent jobs can each pass the existence check first and duplicate the
extraction, so "at most one extraction even under concurrent callers" does
not hold of the code. -/
theorem c9_serial_amended (n : ℕ) (h : 1 ≤ n) :
    (runSched n (serialSched n)).extractions = 1 := by
  obtain ⟨m, rfl⟩ : ∃ m, n = m + 1 := ⟨n - 1, (Nat.succ_pred_eq_of_pos h).symm⟩
  have hser : serialSched (m + 1) =
      [0, 0] ++ (List.range m).flatMap (fun i => [i + 1, i + 1]) := by
    simp [serialSched, List.range_succ_eq_map, List.flatMap_cons, List.flatMap_map,
      Function.comp]
  rw [runSched, hser, List.foldl_append]
  have hstep : ([0, 0] : List ℕ).foldl sysStep
      { richExists := false, extractions := 0,
        phases := List.replicate (m + 1) JobPhase.start } =
      { richExists := true, extractions := 1,
        phases := JobPhase.finished :: List.replicate m JobPhase.start } := by
    simp [sysStep, jobStep, List.replicate_succ]
  rw [hstep]
  apply runFrom_stable
  · rfl
  · intro ph hph
    rcases List.mem_cons.mp hph with h | h
    · subst h
      simp
    · have := List.eq_of_mem_replicate h
      subst this
      simp

/-- C9, witness: three serialized jobs perform exactly one extraction. -/
theorem c9_serial_amended_witness : (runSched 3 (serialSched 3)).extractions = 1 :=
  c9_serial_amended 3 (by decide)

end PdfCrush

namespace PdfCrush

/-- A successful Python index is in range. -/
theorem pyIndex_lt (n : ℕ) (i : Int) (j : ℕ) (h : pyIndex n i = some j) : j < n := by
  unfold pyIndex at h
  split at h
  · cases h
    omega
  · split at h
    · cases h
      omega
    · cases h

theorem overridePage_rect (p : VPage) (tx : Int) : (overridePage p tx).rect = p.rect := by
  unfold overridePage
  cases hf : p.widgets.find? (fun w => w.xref == tx) with
  | none => rfl
  | some w =>
    by_cases hb : isButtonField w = true
    · simp only [hb, if_true]
      split <;> rfl
    · simp [hb]

theorem applyOverride_shape (m : List (Int × Target)) (d : List VPage) (it : FillItem)
    (d2 : List VPage) (h : applyOverride m d it = some d2) :
    d2.length = d.length ∧
    ∀ i p, d.get? i = some p → ∃ p2, d2.get? i = some p2 ∧ p2.rect = p.rect := by
  cases hlk : m.lookup it.row with
  | none =>
    simp only [applyOverride, hlk] at h
    cases h
    exact ⟨rfl, fun i p hp => ⟨p, hp, rfl⟩⟩
  | some t =>
    cases hpi : pyIndex d.length (t.page - 1) with
    | none => simp [applyOverride, hlk, hpi] at h
    | some i =>
      by_cases hchk : shouldCheck it.value = true
      · simp only [applyOverride, hlk, hpi, hchk, if_true, Option.some.injEq] at h
        subst h
        refine ⟨by simp, ?_⟩
        intro k p hp
        have hklt : i < d.length := pyIndex_lt d.length (t.page - 1) i hpi
        by_cases hik : i = k
        · subst hik
          have hgd : d.getD i emptyVPage = p := by
            have hp' : d[i]? = some p := by rw [← List.get?_eq_getElem?]; exact hp
            simp [List.getD, hp']
          refine ⟨overridePage (d.getD i emptyVPage) t.xref, ?_, ?_⟩
          · rw [List.get?_set_of_lt' _ _ hklt, if_pos rfl]
          · rw [hgd, overridePage_rect]
        · refine ⟨p, ?_, rfl⟩
          rw [List.get?_set_of_lt' _ _ hklt, if_neg hik]
          exact hp
      · have hchk' : shouldCheck it.value = false := by
          rw [Bool.not_eq_true] at hchk
          exact hchk
        simp only [applyOverride, hlk, hpi, hchk', Bool.false_eq_true, if_false,
          Option.some.injEq] at h
        subst h
        exact ⟨rfl, fun i p hp => ⟨p, hp, rfl⟩⟩

theorem visualOverrides_shape (m : List (Int × Target)) (plan : List FillItem)
    (d d2 : List VPage) (h : visualOverrides m d plan = some d2) :
    d2.length = d.length ∧
    ∀ i p, d.get? i = some p → ∃ p2, d2.get? i = some p2 ∧ p2.rect = p.rect := by
  induction plan generalizing d with
  | nil =>
    simp only [visualOverrides] at h
    cases h
    exact ⟨rfl, fun i p hp => ⟨p, hp, rfl⟩⟩
  | cons it rest ih =>
    simp only [visualOverrides] at h
    cases happ : applyOverride m d it with
    | none =>
      simp only [happ] at h
      exact Option.noConfusion h
    | some dmid =>
      simp only [happ] at h
      obtain ⟨hl1, hr1⟩ := applyOverride_shape m d it dmid happ
      obtain ⟨hl2, hr2⟩ := ih dmid h
      refine ⟨hl2.trans hl1, ?_⟩
      intro i p hp
      obtain ⟨pmid, hpmid, hrect1⟩ := hr1 i p hp
      obtain ⟨p2, hp2, hrect2⟩ := hr2 i pmid hpmid
      exact ⟨p2, hp2, hrect2.trans hrect1⟩

/-- C10: the flattened fallback.  Whenever PART B completes, the flattened
document has exactly one page per page of the filled document, each created
with the corresponding source page's width and height, containing a single
inserted raster image (the rendering of that page, widget appearances and
overrides included) and no interactive form widgets. -/
theorem c10_flatten_raster (m : List (Int × Target)) (plan : List FillItem)
    (d : List VPage) (out : List FlatPage) (h : flattenPartB m plan d = some out) :
    out.length = d.length ∧
    ∀ i p, d.get? i = some p → ∃ fp, out.get? i = some fp ∧
      fp.width = p.rect.width ∧ fp.height = p.rect.height ∧
      fp.widgets = [] ∧ ∃ q, fp.images = [q] := by
  unfold flattenPartB at h
  cases hv : visualOverrides m d plan with
  | none => rw [hv] at h; cases h
  | some d2 =>
    rw [hv] at h
    have hout : out = rasterize d2 := (Option.some.inj h).symm
    subst hout
    obtain ⟨hl, hr⟩ := visualOverrides_shape m plan d d2 hv
    constructor
    · simp [rasterize, hl]
    · intro i p hp
      obtain ⟨p2, hp2, hrect⟩ := hr i p hp
      refine ⟨⟨p2.rect.width, p2.rect.height, [p2], []⟩, ?_, by rw [hrect], by rw [hrect],
        rfl, ⟨p2, rfl⟩⟩
      rw [rasterize, List.get?_map, hp2]
      rfl

def c10Page : VPage :=
  { rect := ⟨0, 0, 200, 100⟩, widgets := [mkTextWidget 9 ⟨0, 0, 10, 10⟩], drawings := [] }

def c10Doc : List VPage := [c10Page]

def c10Map : List (Int × Target) := [(1, { page := 1, xref := 9, rect := ⟨0, 0, 10, 10⟩ })]

def c10Plan : List FillItem := [{ row := 1, value := "x" }]

/-- C10, witness: the theorem applied to a concrete one-page run. -/
theorem c10_flatten_raster_witness :
    (rasterize c10Doc).length = c10Doc.length ∧
    (∃ fp, (rasterize c10Doc).get? 0 = some fp ∧
      fp.width = c10Page.rect.width ∧ fp.height = c10Page.rect.height ∧
      fp.widgets = [] ∧ ∃ q, fp.images = [q]) :=
  ⟨(c10_flatten_raster c10Map c10Plan c10Doc (rasterize c10Doc) rfl).1,
    (c10_flatten_raster c10Map c10Plan c10Doc (rasterize c10Doc) rfl).2 0 c10Page rfl⟩

end PdfCrush
